import Mathlib

/-!
# BLE Diagnostic Validator — shallow embedding

Shallow embedding of the diagnostics screen of `EspWifiReactTest`
(`src/app/(tabs)/diagnostics.tsx`).  The screen sequences seven manually
triggered BLE operations (create manager, check adapter state, unfiltered
scan, UUID-filtered scan, connect, discover services, validate expected
characteristics) plus an auxiliary Disconnect action, tracking a per-step
status (`pending | running | pass | fail`) and a per-step log.

The embedding is purely functional: every asynchronous interaction with the
platform BLE stack (`react-native-ble-plx`) is turned into explicit event
lists or outcome parameters, and the React `useState`/`useRef` cells become
fields of an explicit state record.  Log entries keep only their message
text (the `time` field of a `LogEntry` is a wall-clock timestamp irrelevant
to every property considered here).
-/

namespace BleDiag

/-- Per-step status, `type StepStatus = 'pending' | 'running' | 'pass' | 'fail'`. -/
inductive StepStatus where
  | pending
  | running
  | pass
  | fail
deriving DecidableEq, Repr

/-- Adapter states of `react-native-ble-plx`'s `State` enum. -/
inductive AdapterState where
  | unknown
  | resetting
  | unsupported
  | unauthorized
  | poweredOff
  | poweredOn
deriving DecidableEq, Repr

/-- The string form logged for an adapter state (the enum's string value). -/
def AdapterState.toStr : AdapterState → String
  | .unknown => "Unknown"
  | .resetting => "Resetting"
  | .unsupported => "Unsupported"
  | .unauthorized => "Unauthorized"
  | .poweredOff => "PoweredOff"
  | .poweredOn => "PoweredOn"

/-- `const SERVICE_UUID = '0000FFE0-0000-1000-8000-00805F9B34FB'`. -/
def SERVICE_UUID : String := "0000FFE0-0000-1000-8000-00805F9B34FB"

/-- `const STATUS_CHAR_UUID = '0000FFE1-0000-1000-8000-00805F9B34FB'`. -/
def STATUS_CHAR_UUID : String := "0000FFE1-0000-1000-8000-00805F9B34FB"

/-- `const COMMAND_CHAR_UUID = '0000FFE2-0000-1000-8000-00805F9B34FB'`. -/
def COMMAND_CHAR_UUID : String := "0000FFE2-0000-1000-8000-00805F9B34FB"

/-- `const RESPONSE_CHAR_UUID = '0000FFE3-0000-1000-8000-00805F9B34FB'`. -/
def RESPONSE_CHAR_UUID : String := "0000FFE3-0000-1000-8000-00805F9B34FB"

/-- `const DEVICE_NAME_PREFIX = 'ESP32-WiFi-'` (renamed: Lean-side constraints
on identifier endings). -/
def DEVICE_NAME_START : String := "ESP32-WiFi-"

/-- JavaScript's `String.prototype.toUpperCase()` on the ASCII UUID strings of
the screen: uppercase every character.  (Defined over the character list so
that it reduces in the kernel; `String.toUpper` itself is defined by
well-founded recursion on byte positions.) -/
def upper (s : String) : String := ⟨s.data.map Char.toUpper⟩

/-- JavaScript's `String.prototype.startsWith(p)`: the character sequence of
`p` is an initial segment of that of `s`. -/
def strStarts (s p : String) : Bool := p.data.isPrefixOf s.data

/-- A discovered GATT characteristic: UUID plus the capability flags the
screen reads (`isReadable`, `isWritableWithResponse`,
`isWritableWithoutResponse`, `isNotifiable`, `isIndicatable`). -/
structure Characteristic where
  uuid : String
  isReadable : Bool
  isWritableWithResponse : Bool
  isWritableWithoutResponse : Bool
  isNotifiable : Bool
  isIndicatable : Bool
deriving DecidableEq, Repr

/-- A discovered GATT service: UUID plus its characteristic list. -/
structure Service where
  uuid : String
  characteristics : List Characteristic
deriving DecidableEq, Repr

/-- The fixed `expected` array of Step 7: (uuid, display name) pairs. -/
def expectedChars : List (String × String) :=
  [(STATUS_CHAR_UUID, "Status (FFE1)"),
   (COMMAND_CHAR_UUID, "Command (FFE2)"),
   (RESPONSE_CHAR_UUID, "Response (FFE3)")]

/-- The per-expected-characteristic log line of Step 7 when the
characteristic is present: the template
`  ${found ? 'FOUND' : 'MISSING'}: ${exp.name} (${exp.uuid})` with the
FOUND branch selected. -/
def foundLine (e : String × String) : String :=
  "  FOUND: " ++ e.2 ++ " (" ++ e.1 ++ ")"

/-- The per-expected-characteristic log line of Step 7 when the
characteristic is absent: the same template with the MISSING branch. -/
def missingLine (e : String × String) : String :=
  "  MISSING: " ++ e.2 ++ " (" ++ e.1 ++ ")"

/-- Step 7 body (`runValidateChars`), given the connected device's service
list (the `device.services()` result) and an optional error thrown by the
asynchronous enumeration (the `catch` branch).  Returns the final
(status, log) pair of the step.  The "no connected device" guard lives in
the stateful wrapper `runValidateS` below. -/
def runValidateChars (services : List Service) (enumErr : Option String) :
    StepStatus × List String :=
  let l0 := ["Looking for service " ++ SERVICE_UUID ++ "..."]
  match enumErr with
  | some msg => (.fail, l0 ++ ["Validation FAILED: " ++ msg])
  | none =>
    match services.find? (fun s => upper s.uuid == upper SERVICE_UUID) with
    | none =>
        (.fail, l0 ++ ["Service " ++ SERVICE_UUID ++ " NOT FOUND",
          "Available services: " ++ String.intercalate ", " (services.map Service.uuid)])
    | some target =>
      let chars := target.characteristics
      let charUUIDs := chars.map (fun c => upper c.uuid)
      let checkLogs := expectedChars.map (fun e =>
        if charUUIDs.contains (upper e.1) then foundLine e else missingLine e)
      let allFound := expectedChars.all (fun e => charUUIDs.contains (upper e.1))
      let expectedUUIDs := expectedChars.map (fun e => upper e.1)
      let extras := chars.filter (fun c => !(expectedUUIDs.contains (upper c.uuid)))
      let extraLogs :=
        if extras.length > 0 then
          ["\nExtra characteristics on this service:"] ++ extras.map (fun c => "  " ++ c.uuid)
        else []
      ((if allFound then .pass else .fail),
        l0 ++ ["Service found! Checking characteristics..."] ++ checkLogs ++ extraLogs)

/-! ## Scan windows (Steps 3 and 4)

`runUnfilteredScan` / `runFilteredScan` start a device scan whose callback
receives either a `BleError` or a `Device`, and a 10-second timer whose
expiry stops the scan and evaluates the result.  A scan window is modelled
as the list of callback invocations delivered during the window, folded in
arrival order, followed by the timer body. -/

/-- The fields of a `Device` the scan callback reads. -/
structure AdvDevice where
  id : String
  name : Option String
  localName : Option String
  rssi : Option Int
  serviceUUIDs : Option (List String)
deriving DecidableEq, Repr

/-- `interface DiscoveredDevice` of the screen. -/
structure DiscoveredDevice where
  id : String
  name : Option String
  rssi : Option Int
  serviceUUIDs : Option (List String)
deriving DecidableEq, Repr

/-- One invocation of the scan callback: an advertisement (`device` non-null)
or an error (`error` non-null). -/
inductive ScanEvent where
  | adv (d : AdvDevice)
  | err (code : Int) (msg : String)
deriving DecidableEq, Repr

/-- The mutable state a scan window touches: the `seen` map (insertion-ordered,
keyed by device id), the step status, the step log, and the displayed device
list (`setDevices` / `setFilteredDevices`). -/
structure ScanRun where
  seen : List (String × DiscoveredDevice)
  status : StepStatus
  logs : List String
  devices : List DiscoveredDevice
deriving DecidableEq, Repr

/-- `seen.has(id)` on the insertion-ordered map. -/
def hasKey (seen : List (String × DiscoveredDevice)) (id : String) : Bool :=
  seen.any (fun p => p.1 == id)

/-- How a rendered template prints `entry.rssi` (`null` when absent). -/
def rssiStr : Option Int → String
  | some n => toString n
  | none => "null"

/-- `entry.name ?? '(unnamed)'`. -/
def dispName : Option String → String
  | some n => n
  | none => "(unnamed)"

/-- The `DiscoveredDevice` entry built by the callback:
`name: device.name ?? device.localName ?? null`, plus `rssi` and
`serviceUUIDs` taken from the device. -/
def mkEntry (d : AdvDevice) : DiscoveredDevice :=
  { id := d.id
    name := d.name <|> d.localName
    rssi := d.rssi
    serviceUUIDs := d.serviceUUIDs }

/-- `entry.name?.startsWith(DEVICE_NAME_PREFIX)` coerced to a boolean
(an absent name is falsy). -/
def isEspName : Option String → Bool
  | some n => strStarts n DEVICE_NAME_START
  | none => false

/-- The `Found: ...` log line of a scan callback.  Step 3 (`filtered = false`)
appends the ` *** ESP32 ***` marker for names starting with the fixed
device-name opening; Step 4 does not. -/
def foundLogLine (filtered : Bool) (e : DiscoveredDevice) : String :=
  "Found: " ++ dispName e.name ++ " | " ++ e.id ++ " | RSSI: " ++ rssiStr e.rssi ++
    (if !filtered && isEspName e.name then " *** ESP32 ***" else "")

/-- The `Scan error: ...` log line of a scan callback. -/
def scanErrLine (code : Int) (msg : String) : String :=
  "Scan error: [" ++ toString code ++ "] " ++ msg

/-- One scan-callback invocation (the closure passed to `startDeviceScan`).
An error logs the code and message and sets the step status to `fail` (and
merely returns: the scan and the timer keep going).  A device already in
`seen` is ignored entirely; a new one is inserted at the end of the map, the
display list is refreshed from the map's values, and a `Found:` line is
logged. -/
def scanCallback (filtered : Bool) (st : ScanRun) (e : ScanEvent) : ScanRun :=
  match e with
  | .err code msg =>
      { st with logs := st.logs ++ [scanErrLine code msg], status := .fail }
  | .adv d =>
      if hasKey st.seen d.id then st
      else
        let entry := mkEntry d
        let seen := st.seen ++ [(d.id, entry)]
        { st with
            seen := seen
            devices := seen.map Prod.snd
            logs := st.logs ++ [foundLogLine filtered entry] }

/-- The timer body at window end (`setTimeout(..., 10000)`): stop the scan,
log the device count (plus, for the unfiltered scan, the count of devices
whose name starts with the ESP32 name opening), and set the final status:
`pass` iff at least one device was collected. -/
def scanFinish (filtered : Bool) (st : ScanRun) : ScanRun :=
  if filtered then
    { st with
        logs := st.logs ++
          ["Filtered scan complete. Found " ++ toString st.seen.length ++ " device(s)."]
        status := if st.seen.length > 0 then .pass else .fail }
  else
    let espCount :=
      ((st.seen.map Prod.snd).filter (fun d => isEspName d.name)).length
    { st with
        logs := st.logs ++
          ["Scan complete. Found " ++ toString st.seen.length ++ " device(s).",
           "ESP32 devices (name starts with \"" ++ DEVICE_NAME_START ++ "\"): " ++
             toString espCount]
        status := if st.seen.length > 0 then .pass else .fail }

/-- The state of a scan step right after its trigger's synchronous entry:
status `running`, log reset to the start line, display list cleared,
fresh empty `seen` map. -/
def scanInit (filtered : Bool) : ScanRun :=
  { seen := []
    status := .running
    logs := [if filtered then
               "Starting scan with UUID filter [" ++ SERVICE_UUID ++ "] for 10 seconds..."
             else
               "Starting unfiltered scan for 10 seconds..."]
    devices := [] }

/-- A whole scan window: entry reset, the callback invocations delivered
during the 10-second window in arrival order, then the timer body. -/
def runScan (filtered : Bool) (events : List ScanEvent) : ScanRun :=
  scanFinish filtered (events.foldl (scanCallback filtered) (scanInit filtered))

/-- The device identifiers of the advertisement callbacks of a window, in
arrival order (errors carry no device). -/
def advIds (events : List ScanEvent) : List String :=
  events.filterMap (fun e => match e with | .adv d => some d.id | .err _ _ => none)

/-- Specification-side first-occurrence deduplication: keep each identifier at
its first occurrence, drop every later duplicate (stated structurally:
deduplicate the tail, then drop the head's later occurrences). -/
def dedupFirst : List String → List String
  | [] => []
  | x :: xs => x :: (dedupFirst xs).filter (fun y => !(y == x))

/-! ## Step 2 — Query Adapter State (`runCheckState`)

When the current state is not `PoweredOn`, `runCheckState` subscribes to
state-change notifications (`manager.onStateChange(..., true)`, which also
delivers the current value immediately) and schedules a 10-second timer.

Two closure-captured values matter:

* the subscription callback removes the subscription (`sub.remove()`) the
  first time it observes `PoweredOn`;
* the timer body guards on `stateStatus === 'running'` — but `stateStatus`
  there is the value captured when the invoked `useCallback` closure was
  created (the React state variable of that render), NOT the live status at
  the moment the timer fires; `setStateStatus('running')` never updates it.
  The model therefore threads that captured value (`captured`) explicitly
  and the timer compares it, exactly as the source does.

A run of the step is modelled by the initial queried state plus the list of
deliveries after subscribing: state-change notifications (including the
immediate initial delivery) and the single timer expiry. -/

/-- A delivery during a Step 2 wait: a state-change notification, or the
expiry of the 10-second timer. -/
inductive Step2Event where
  | stateChange (s : AdapterState)
  | timeoutFire
deriving DecidableEq, Repr

/-- The observable state of one Step 2 invocation: step status and log, the
last value given to `setBleState`, whether this invocation's subscription is
still active, and how many times `sub.remove()` ran on it. -/
structure Step2Run where
  status : StepStatus
  logs : List String
  bleState : AdapterState
  subActive : Bool
  removeCalls : Nat
deriving DecidableEq, Repr

/-- One delivery processed by a waiting Step 2 invocation.  A state-change
notification reaches the callback only while the subscription is active; on
`PoweredOn` the callback sets `pass` and removes the subscription.  The
timer body compares the stale `captured` status with `'running'`; when the
guard passes it logs the timeout, sets `fail` and calls `sub.remove()`
(even if the callback already removed the subscription). -/
def step2Event (captured : StepStatus) (st : Step2Run) (e : Step2Event) : Step2Run :=
  match e with
  | .stateChange s =>
      if st.subActive then
        let st := { st with
          bleState := s
          logs := st.logs ++ ["State changed to: " ++ s.toStr] }
        if s = .poweredOn then
          { st with status := .pass, subActive := false, removeCalls := st.removeCalls + 1 }
        else st
      else st
  | .timeoutFire =>
      if captured = .running then
        { st with
            logs := st.logs ++ ["Timed out waiting for PoweredOn"]
            status := .fail
            subActive := false
            removeCalls := st.removeCalls + 1 }
      else st

/-- One invocation of `runCheckState` with a manager present: reset status to
`running` and the log, query the state; `pass` immediately on `PoweredOn`
(no subscription, no timer), otherwise subscribe and process the deliveries
in order.  `captured` is the `stateStatus` value held by the invoked
closure (see above). -/
def runCheckStatePure (captured : StepStatus) (initState : AdapterState)
    (events : List Step2Event) : Step2Run :=
  let base : Step2Run :=
    { status := .running
      logs := ["Checking BLE adapter state...", "Current state: " ++ initState.toStr]
      bleState := initState
      subActive := false
      removeCalls := 0 }
  if initState = .poweredOn then
    { base with status := .pass }
  else
    let base := { base with
      logs := base.logs ++ ["Waiting for state change (currently " ++ initState.toStr ++ ")..."]
      subActive := true }
    events.foldl (step2Event captured) base

/-! ## Step 1 — Create BleManager (`runCreateManager`)

For the single-live-handle property the relevant observable is the sequence
of handle-lifecycle actions the step performs.  `BleManager.destroy()`
returns a promise; `runCreateManager` is a plain (non-async) function that
calls `destroy()` without awaiting it, nulls the ref, and constructs the new
manager immediately — no teardown-completed acknowledgment occurs anywhere
in the step. -/

/-- Handle-lifecycle actions: initiating `destroy()` on a handle, the
(asynchronous) completion of that teardown, and constructing a handle. -/
inductive MgrAction where
  | destroyInitiate (h : Nat)
  | teardownComplete (h : Nat)
  | create (h : Nat)
deriving DecidableEq, Repr

/-- The handle-lifecycle actions `runCreateManager` performs, in program
order, given the pre-existing handle (if any) and the identity of the handle
`new BleManager()` yields. -/
def runCreateManagerActions (existing : Option Nat) (newId : Nat) : List MgrAction :=
  match existing with
  | some h => [.destroyInitiate h, .create newId]
  | none => [.create newId]

/-! ## The validator's shared state and the step triggers over it

The screen's `useState`/`useRef` cells: seven status cells, seven log cells,
two displayed device lists, the manager ref, the connected-device ref, and
the `bleState` display cell.  Each step trigger is a function on this record,
parameterized by the outcomes of the asynchronous platform operations it
performs. -/

/-- A connected `Device` as the later steps read it: identifier, name,
negotiated MTU, and the services the native connection holds after
discovery (`device.services()`). -/
structure ConnDevice where
  id : String
  name : Option String
  mtu : Int
  services : List Service
deriving DecidableEq, Repr

/-- The whole mutable state of the diagnostics screen. -/
structure VState where
  createStatus : StepStatus
  stateStatus : StepStatus
  scanStatus : StepStatus
  filteredScanStatus : StepStatus
  connectStatus : StepStatus
  discoverStatus : StepStatus
  validateStatus : StepStatus
  createLogs : List String
  stateLogs : List String
  scanLogs : List String
  filteredScanLogs : List String
  connectLogs : List String
  discoverLogs : List String
  validateLogs : List String
  devices : List DiscoveredDevice
  filteredDevices : List DiscoveredDevice
  bleManager : Option Nat
  connectedDevice : Option ConnDevice
  bleState : AdapterState
deriving DecidableEq, Repr

/-- The status cell of step `k` (steps numbered 0–6 for 1–7). -/
def statusOf (k : Fin 7) (st : VState) : StepStatus :=
  match k with
  | 0 => st.createStatus
  | 1 => st.stateStatus
  | 2 => st.scanStatus
  | 3 => st.filteredScanStatus
  | 4 => st.connectStatus
  | 5 => st.discoverStatus
  | 6 => st.validateStatus

/-- The log cell of step `k`. -/
def logsOf (k : Fin 7) (st : VState) : List String :=
  match k with
  | 0 => st.createLogs
  | 1 => st.stateLogs
  | 2 => st.scanLogs
  | 3 => st.filteredScanLogs
  | 4 => st.connectLogs
  | 5 => st.discoverLogs
  | 6 => st.validateLogs

/-- Step `k`'s trigger touches no status or log cell outside `ks`. -/
def framedExcept (ks : List (Fin 7)) (a b : VState) : Prop :=
  ∀ j : Fin 7, j ∉ ks → statusOf j b = statusOf j a ∧ logsOf j b = logsOf j a

/-- Step 1 trigger (`runCreateManager`): if a handle exists, `destroy()` it
(not awaited) and null the ref; reset status/log; construct the new manager
(`alloc = none` for success, `some msg` for the constructor throwing).  The
`'BleManager already exists, destroying first...'` line is appended before
the `setCreateLogs([])` reset in the same synchronous handler, so the reset
erases it from the final log. -/
def runCreateManagerS (alloc : Option String) (newId : Nat) (st : VState) : VState :=
  let st1 :=
    match st.bleManager with
    | some _ => { st with bleManager := none }
    | none => st
  match alloc with
  | none =>
      { st1 with
          bleManager := some newId
          createStatus := .pass
          createLogs := ["Creating new BleManager()...", "BleManager created successfully"] }
  | some msg =>
      { st1 with
          createStatus := .fail
          createLogs := ["Creating new BleManager()...", "FAILED: " ++ msg] }

/-- Step 2 trigger (`runCheckState`): without a manager, append the error line
(this path never clears the log) and fail; otherwise run the pure model and
store its status, log and `bleState`. -/
def runCheckStateS (captured : StepStatus) (initState : AdapterState)
    (events : List Step2Event) (st : VState) : VState :=
  match st.bleManager with
  | none =>
      { st with
          stateLogs := st.stateLogs ++ ["ERROR: No BleManager — run Step 1 first"]
          stateStatus := .fail }
  | some _ =>
      let r := runCheckStatePure captured initState events
      { st with stateStatus := r.status, stateLogs := r.logs, bleState := r.bleState }

/-- Step 3 trigger (`runUnfilteredScan`). -/
def runUnfilteredScanS (events : List ScanEvent) (st : VState) : VState :=
  match st.bleManager with
  | none =>
      { st with
          scanLogs := st.scanLogs ++ ["ERROR: No BleManager — run Step 1 first"]
          scanStatus := .fail }
  | some _ =>
      let r := runScan false events
      { st with scanStatus := r.status, scanLogs := r.logs, devices := r.devices }

/-- Step 4 trigger (`runFilteredScan`). -/
def runFilteredScanS (events : List ScanEvent) (st : VState) : VState :=
  match st.bleManager with
  | none =>
      { st with
          filteredScanLogs := st.filteredScanLogs ++ ["ERROR: No BleManager — run Step 1 first"]
          filteredScanStatus := .fail }
  | some _ =>
      let r := runScan true events
      { st with
          filteredScanStatus := r.status
          filteredScanLogs := r.logs
          filteredDevices := r.devices }

/-- Outcome of `manager.connectToDevice(id, { requestMTU: 517, timeout: 10000 })`. -/
inductive ConnectOutcome where
  | ok (conn : ConnDevice)
  | err (msg : String) (code : Option Int)
deriving DecidableEq, Repr

/-- Step 5 trigger (`runConnect`) on a tapped device. -/
def runConnectS (target : DiscoveredDevice) (outcome : ConnectOutcome) (st : VState) : VState :=
  match st.bleManager with
  | none =>
      { st with
          connectLogs := st.connectLogs ++ ["ERROR: No BleManager"]
          connectStatus := .fail }
  | some _ =>
    let opening := "Connecting to " ++
      (match target.name with | some n => n | none => target.id) ++ "..."
    match outcome with
    | .ok conn =>
        { st with
            connectedDevice := some conn
            connectStatus := .pass
            connectLogs := [opening,
              "Connected! MTU: " ++ toString conn.mtu,
              "Device ID: " ++ conn.id,
              "Device name: " ++ (match conn.name with | some n => n | none => "(null)")] }
    | .err msg code =>
        { st with
            connectStatus := .fail
            connectLogs := [opening, "Connection FAILED: " ++ msg] ++
              (match code with | some c => ["Error code: " ++ toString c] | none => []) }

/-- Outcome of `discoverAllServicesAndCharacteristics` plus the enumeration. -/
inductive DiscoverOutcome where
  | ok
  | err (msg : String)
deriving DecidableEq, Repr

/-- The capability-flag list Step 6 prints for a characteristic. -/
def charFlagsStr (c : Characteristic) : String :=
  String.intercalate ", "
    ((if c.isReadable then ["Read"] else []) ++
     (if c.isWritableWithResponse then ["Write"] else []) ++
     (if c.isWritableWithoutResponse then ["WriteNoResp"] else []) ++
     (if c.isNotifiable then ["Notify"] else []) ++
     (if c.isIndicatable then ["Indicate"] else []))

/-- The log lines Step 6 prints for one service and its characteristics. -/
def serviceLogs (s : Service) : List String :=
  ["\n  Service: " ++ s.uuid] ++
    s.characteristics.map (fun c => "    Char: " ++ c.uuid ++ " [" ++ charFlagsStr c ++ "]")

/-- Step 6 trigger (`runDiscoverServices`). -/
def runDiscoverS (outcome : DiscoverOutcome) (st : VState) : VState :=
  match st.connectedDevice with
  | none =>
      { st with
          discoverLogs := st.discoverLogs ++ ["ERROR: No connected device — run Step 5 first"]
          discoverStatus := .fail }
  | some dev =>
    match outcome with
    | .ok =>
        { st with
            discoverStatus := .pass
            discoverLogs := ["Discovering all services and characteristics...",
                "Found " ++ toString dev.services.length ++ " service(s):"] ++
              (dev.services.map serviceLogs).flatten }
    | .err msg =>
        { st with
            discoverStatus := .fail
            discoverLogs := ["Discovering all services and characteristics...",
              "Discovery FAILED: " ++ msg] }

/-- Step 7 trigger (`runValidateChars` over the shared state). -/
def runValidateS (enumErr : Option String) (st : VState) : VState :=
  match st.connectedDevice with
  | none =>
      { st with
          validateLogs := st.validateLogs ++ ["ERROR: No connected device"]
          validateStatus := .fail }
  | some dev =>
      let r := runValidateChars dev.services enumErr
      { st with validateStatus := r.1, validateLogs := r.2 }

/-- The Disconnect button's handler: `await cancelConnection()`, and only
after it resolves clear the ref and reset Steps 5–7; the `catch {}` swallows
a rejection, in which case none of the statements after the `await` ran — the
state is left exactly as it was.  `cancelOk` is whether the cancel operation
resolved. -/
def disconnectS (cancelOk : Bool) (st : VState) : VState :=
  if cancelOk then
    { st with
        connectedDevice := none
        connectStatus := .pending
        connectLogs := []
        discoverStatus := .pending
        discoverLogs := []
        validateStatus := .pending
        validateLogs := [] }
  else st

/-! ## Helper lemmas — scan accumulation -/

lemma hasKey_iff (seen : List (String × DiscoveredDevice)) (id : String) :
    hasKey seen id = true ↔ id ∈ seen.map Prod.fst := by
  simp [hasKey, List.any_eq_true, List.mem_map]

lemma dedupFirst_filter (q : String → Bool) (l : List String) :
    dedupFirst (l.filter q) = (dedupFirst l).filter q := by
  induction l with
  | nil => simp [dedupFirst]
  | cons x xs ih =>
    by_cases hq : q x = true
    · rw [List.filter_cons_of_pos hq]
      simp only [dedupFirst, ih, List.filter_cons_of_pos hq, List.filter_filter]
      congr 1
      apply List.filter_congr
      intro a _
      rw [Bool.and_comm]
    · rw [List.filter_cons_of_neg hq]
      simp only [dedupFirst, ih, List.filter_cons_of_neg hq, List.filter_filter]
      apply List.filter_congr
      intro a _
      by_cases ha : a = x
      · subst ha
        simp [Bool.eq_false_iff.mpr hq]
      · simp [beq_iff_eq, ha]

lemma mem_dedupFirst {y : String} {l : List String} : y ∈ dedupFirst l ↔ y ∈ l := by
  induction l with
  | nil => simp [dedupFirst]
  | cons x xs ih =>
    simp only [dedupFirst, List.mem_cons, List.mem_filter, ih]
    by_cases h : y = x <;> simp [h]

lemma nodup_dedupFirst (l : List String) : (dedupFirst l).Nodup := by
  induction l with
  | nil => simp [dedupFirst]
  | cons x xs ih =>
    refine List.Nodup.cons ?_ (ih.filter _)
    intro hx
    rcases List.mem_filter.mp hx with ⟨-, hne⟩
    simp at hne

lemma scanCallback_err_seen (f : Bool) (st : ScanRun) (c : Int) (m : String) :
    (scanCallback f st (.err c m)).seen = st.seen := rfl

lemma foldScan_seen_keys (f : Bool) (events : List ScanEvent) (st : ScanRun) :
    (events.foldl (scanCallback f) st).seen.map Prod.fst =
      st.seen.map Prod.fst ++
        dedupFirst ((advIds events).filter (fun id => !(hasKey st.seen id))) := by
  induction events generalizing st with
  | nil => simp [advIds, dedupFirst]
  | cons e rest ih =>
    cases e with
    | err c m =>
        rw [List.foldl_cons, ih]
        simp [advIds, scanCallback]
    | adv d =>
        rw [List.foldl_cons]
        by_cases hk : hasKey st.seen d.id = true
        · rw [show scanCallback f st (.adv d) = st by simp [scanCallback, hk]]
          rw [ih]
          congr 2
          simp only [advIds, List.filterMap_cons]
          rw [List.filter_cons_of_neg (by simp [hk])]
        · have hcb : scanCallback f st (.adv d) =
              { st with
                  seen := st.seen ++ [(d.id, mkEntry d)]
                  devices := (st.seen ++ [(d.id, mkEntry d)]).map Prod.snd
                  logs := st.logs ++ [foundLogLine f (mkEntry d)] } := by
            simp [scanCallback, Bool.eq_false_iff.mpr hk]
          rw [hcb, ih]
          have hkeys :
              ((st.seen ++ [(d.id, mkEntry d)]).map Prod.fst) =
                st.seen.map Prod.fst ++ [d.id] := by simp
          simp only [hkeys]
          have hnew : ∀ id, hasKey (st.seen ++ [(d.id, mkEntry d)]) id =
              (hasKey st.seen id || (d.id == id)) := by
            intro id
            simp [hasKey, List.any_append]
          simp only [hnew]
          have hids : advIds (ScanEvent.adv d :: rest) = d.id :: advIds rest := by
            simp [advIds]
          rw [hids, List.filter_cons_of_pos (by simp [hk])]
          rw [List.append_assoc]
          congr 1
          show [d.id] ++ _ = dedupFirst (d.id :: _)
          rw [show ∀ x xs, dedupFirst (x :: xs) =
                x :: (dedupFirst xs).filter (fun y => !(y == x)) from fun _ _ => rfl]
          simp only [List.singleton_append, List.cons.injEq, true_and]
          rw [← dedupFirst_filter, List.filter_filter]
          congr 1
          apply List.filter_congr
          intro a _
          by_cases ha : a = d.id
          · subst ha; simp
          · have h1 : (d.id == a) = false := beq_eq_false_iff_ne.mpr (Ne.symm ha)
            have h2 : (a == d.id) = false := beq_eq_false_iff_ne.mpr ha
            simp [h1, h2]

lemma foldScan_devices (f : Bool) (events : List ScanEvent) (st : ScanRun)
    (h : st.devices = st.seen.map Prod.snd) :
    (events.foldl (scanCallback f) st).devices =
      (events.foldl (scanCallback f) st).seen.map Prod.snd := by
  induction events generalizing st with
  | nil => simpa using h
  | cons e rest ih =>
    rw [List.foldl_cons]
    apply ih
    cases e with
    | err c m => simpa [scanCallback] using h
    | adv d =>
        by_cases hk : hasKey st.seen d.id = true
        · simpa [scanCallback, hk] using h
        · simp [scanCallback, Bool.eq_false_iff.mpr hk]

lemma scanFinish_seen (f : Bool) (st : ScanRun) : (scanFinish f st).seen = st.seen := by
  cases f <;> simp [scanFinish]

lemma scanFinish_devices (f : Bool) (st : ScanRun) :
    (scanFinish f st).devices = st.devices := by
  cases f <;> simp [scanFinish]

lemma runScan_seen_keys (f : Bool) (events : List ScanEvent) :
    (runScan f events).seen.map Prod.fst = dedupFirst (advIds events) := by
  rw [runScan, scanFinish_seen, foldScan_seen_keys]
  simp [scanInit, hasKey]

lemma runScan_status (f : Bool) (events : List ScanEvent) :
    (runScan f events).status =
      if 0 < (runScan f events).seen.length then .pass else .fail := by
  rw [runScan]
  rw [scanFinish_seen]
  cases f <;> simp [scanFinish]

lemma runScan_status_iff (f : Bool) (events : List ScanEvent) :
    (runScan f events).status = .pass ↔ advIds events ≠ [] := by
  rw [runScan_status]
  have hk := runScan_seen_keys f events
  constructor
  · intro h
    by_contra hnil
    rw [hnil] at hk
    simp [dedupFirst] at hk
    simp [hk] at h
  · intro hne
    rcases List.exists_mem_of_ne_nil _ hne with ⟨a, ha⟩
    have : a ∈ (runScan f events).seen.map Prod.fst := by
      rw [hk]; exact mem_dedupFirst.mpr ha
    have hlen : 0 < (runScan f events).seen.length := by
      rcases List.mem_map.mp this with ⟨p, hp, -⟩
      exact List.length_pos.mpr (List.ne_nil_of_mem hp)
    simp [hlen]

lemma mem_logs_scanCallback (f : Bool) (st : ScanRun) (e : ScanEvent) (x : String)
    (h : x ∈ st.logs) : x ∈ (scanCallback f st e).logs := by
  cases e with
  | err c m => simp [scanCallback, h]
  | adv d =>
      by_cases hk : hasKey st.seen d.id = true
      · simpa [scanCallback, hk] using h
      · simp [scanCallback, Bool.eq_false_iff.mpr hk, h]

lemma mem_logs_foldScan (f : Bool) (events : List ScanEvent) (st : ScanRun) (x : String)
    (h : x ∈ st.logs) : x ∈ (events.foldl (scanCallback f) st).logs := by
  induction events generalizing st with
  | nil => simpa using h
  | cons e rest ih => exact ih _ (mem_logs_scanCallback f st e x h)

lemma mem_logs_scanFinish (f : Bool) (st : ScanRun) (x : String)
    (h : x ∈ st.logs) : x ∈ (scanFinish f st).logs := by
  cases f <;> simp [scanFinish, h]

/-! ## Claim theorems — scan windows -/

/-- C6: for every scan window (Steps 3 and 4) and every advertisement-callback
sequence, the device identifiers collected at window end are exactly the
distinct identifiers delivered by the callbacks, with no duplicates and no
drops, keyed uniquely by identifier, and the displayed list is the map's
values in first-seen insertion order. -/
theorem C6_scan_dedup_exact (f : Bool) (events : List ScanEvent) :
    (runScan f events).seen.map Prod.fst = dedupFirst (advIds events) ∧
    ((runScan f events).seen.map Prod.fst).Nodup ∧
    (∀ id, id ∈ (runScan f events).seen.map Prod.fst ↔ id ∈ advIds events) ∧
    (runScan f events).devices = (runScan f events).seen.map Prod.snd := by
  refine ⟨runScan_seen_keys f events, ?_, ?_, ?_⟩
  · rw [runScan_seen_keys]; exact nodup_dedupFirst _
  · intro id; rw [runScan_seen_keys]; exact mem_dedupFirst
  · rw [runScan, scanFinish_devices, scanFinish_seen]
    exact foldScan_devices f events _ (by simp [scanInit])

/-- C7: for every error-free scan window the final status is `pass` iff at
least one device was observed; a filtered window with zero observed devices
ends `fail` and logs `Filtered scan complete. Found 0 device(s).`. -/
theorem C7_scan_pass_criterion (f : Bool) (events : List ScanEvent)
    (_herr : ∀ c m, ScanEvent.err c m ∉ events) :
    ((runScan f events).status = .pass ↔ advIds events ≠ []) ∧
    (advIds events = [] →
      (runScan true events).status = .fail ∧
      "Filtered scan complete. Found 0 device(s)." ∈ (runScan true events).logs) := by
  refine ⟨runScan_status_iff f events, ?_⟩
  intro hnil
  have hkeys := runScan_seen_keys true events
  rw [hnil] at hkeys
  have hseen : (runScan true events).seen = [] := by
    rw [show dedupFirst [] = [] from rfl] at hkeys
    exact List.map_eq_nil_iff.mp hkeys
  constructor
  · rw [runScan_status, hseen]; simp
  · rw [runScan] at hseen ⊢
    rw [scanFinish_seen] at hseen
    simp only [scanFinish, hseen, if_true, List.length_nil]
    simp only [List.mem_append, List.mem_singleton]
    exact Or.inr (by decide)

/-- C7 witness: the empty filtered window ends `fail` and reports zero
devices. -/
theorem C7_scan_pass_criterion_w :
    (((runScan true ([] : List ScanEvent)).status = .pass ↔
        advIds ([] : List ScanEvent) ≠ []) ∧
     (advIds ([] : List ScanEvent) = [] →
       (runScan true ([] : List ScanEvent)).status = .fail ∧
       "Filtered scan complete. Found 0 device(s)." ∈
         (runScan true ([] : List ScanEvent)).logs)) :=
  C7_scan_pass_criterion true [] (by simp)

/-- C3 counterexample: a window in which one device is found and then a scan
callback reports an error; the error is logged and status is set to `fail`
at that moment, yet the step does not terminate — the end-of-window
evaluation runs and the step ends with status `pass`. -/
theorem C3_cex :
    (runScan false
      [ScanEvent.adv ⟨"AA:BB:CC:DD:EE:FF", some "Widget", none, some (-40), none⟩,
       ScanEvent.err 600 "Operation was cancelled"]).status = .pass ∧
    scanErrLine 600 "Operation was cancelled" ∈
      (runScan false
        [ScanEvent.adv ⟨"AA:BB:CC:DD:EE:FF", some "Widget", none, some (-40), none⟩,
         ScanEvent.err 600 "Operation was cancelled"]).logs := by
  decide

/-- C3 (amended): a scan callback reporting an error logs the error code and
message and sets the step status to `fail` at that point, but does not stop
the window; the end-of-window evaluation still runs, so the final status is
`pass` exactly when at least one device was collected during the window. -/
theorem C3_scan_error_logged_not_terminal (f : Bool) (pre post : List ScanEvent)
    (code : Int) (msg : String) :
    ((pre ++ [ScanEvent.err code msg]).foldl (scanCallback f) (scanInit f)).status = .fail ∧
    scanErrLine code msg ∈ (runScan f (pre ++ ScanEvent.err code msg :: post)).logs ∧
    ((runScan f (pre ++ ScanEvent.err code msg :: post)).status = .pass ↔
      advIds (pre ++ ScanEvent.err code msg :: post) ≠ []) := by
  refine ⟨?_, ?_, runScan_status_iff _ _⟩
  · rw [List.foldl_append]
    simp [scanCallback]
  · rw [runScan, show pre ++ ScanEvent.err code msg :: post =
        (pre ++ [ScanEvent.err code msg]) ++ post by simp]
    rw [List.foldl_append]
    apply mem_logs_scanFinish
    apply mem_logs_foldScan
    rw [List.foldl_append]
    simp [scanCallback]

/-- C10: during a scan window, an advertisement whose device identifier is
already in the `seen` map is a complete no-op: the stored entry, the log and
the displayed list are all unchanged. -/
theorem C10_duplicate_adv_noop (f : Bool) (st : ScanRun) (d : AdvDevice)
    (h : hasKey st.seen d.id = true) :
    scanCallback f st (.adv d) = st := by
  simp [scanCallback, h]

/-- C10 witness: a second advertisement for `ID1` with a different name,
signal strength and service data changes nothing. -/
theorem C10_duplicate_adv_noop_w :
    scanCallback false
      { seen := [("ID1", ⟨"ID1", some "First", some (-10), none⟩)]
        status := .running
        logs := ["Found: First | ID1 | RSSI: -10"]
        devices := [⟨"ID1", some "First", some (-10), none⟩] }
      (.adv ⟨"ID1", some "Second", none, some (-99), some ["0000FFE0"]⟩) =
    { seen := [("ID1", ⟨"ID1", some "First", some (-10), none⟩)]
      status := .running
      logs := ["Found: First | ID1 | RSSI: -10"]
      devices := [⟨"ID1", some "First", some (-10), none⟩] } :=
  C10_duplicate_adv_noop false _ _ (by decide)

/-! ## Claim theorems — Step 2, Step 1, Disconnect -/

/-- C2: the claim that every Step 2 subscription is released exactly once
fails on the code.  First conjunct pair: in the standard run (the invoked
closure captured `stateStatus = 'pending'`, as on the mount-time auto-run),
with the adapter `PoweredOff` and no further state change, the 10-second
timer fires but its stale guard `stateStatus === 'running'` compares the
captured `'pending'`, so `sub.remove()` is never called — the subscription
stays active and is released zero times.  Last conjunct: when the captured
value is `'running'`, a subscription whose callback already observed
`PoweredOn` (released once) is released a second time by the timer body. -/
theorem C2_subscription_not_released_once :
    ((runCheckStatePure .pending .poweredOff [.timeoutFire]).subActive = true ∧
     (runCheckStatePure .pending .poweredOff [.timeoutFire]).removeCalls = 0) ∧
    (runCheckStatePure .running .poweredOff
      [.stateChange .poweredOff, .stateChange .poweredOn, .timeoutFire]).removeCalls = 2 := by
  decide

/-- C5: the claim that the 10-second deadline produces `fail` with a timeout
message fails on the code.  In the standard run (captured status `'pending'`,
initial state `PoweredOff`, the subscription's immediate self-delivery, then
the timer at 10 s with no `PoweredOn` in between) the stale guard keeps the
timer body from running: the status remains `running` forever and no timeout
message is logged.  The `pass` half of the claim does hold: observing
`PoweredOn` within the window ends the step `pass` (third conjunct). -/
theorem C5_timeout_never_fails_step :
    (runCheckStatePure .pending .poweredOff
        [.stateChange .poweredOff, .timeoutFire]).status = .running ∧
    "Timed out waiting for PoweredOn" ∉
      (runCheckStatePure .pending .poweredOff
        [.stateChange .poweredOff, .timeoutFire]).logs ∧
    (runCheckStatePure .pending .poweredOff
        [.stateChange .poweredOff, .stateChange .poweredOn]).status = .pass := by
  decide

/-- C8 counterexample: with handle `0` alive, Step 1 performs
`[destroyInitiate 0, create 1]` — the new handle is created although no
teardown-completed acknowledgment for handle `0` occurs anywhere in the
step, contradicting the claim that teardown is completed (awaited) before
the new handle is created. -/
theorem C8_cex :
    MgrAction.teardownComplete 0 ∉ runCreateManagerActions (some 0) 1 ∧
    MgrAction.create 1 ∈ runCreateManagerActions (some 0) 1 := by
  decide

/-- C8 (amended): when a handle already exists, Step 1 initiates the prior
handle's `destroy()` before constructing the new handle, but does not await
teardown completion — the step's action trace is exactly
`[destroyInitiate h, create n]`, with no teardown-completed acknowledgment,
so the new handle may be created while the old teardown is still in
flight. -/
theorem C8_destroy_initiated_not_awaited (h n : Nat) :
    runCreateManagerActions (some h) n = [.destroyInitiate h, .create n] ∧
    runCreateManagerActions none n = [.create n] ∧
    MgrAction.teardownComplete h ∉ runCreateManagerActions (some h) n := by
  refine ⟨rfl, rfl, ?_⟩
  simp [runCreateManagerActions]

/-- C4 counterexample: a state connected to a device with Steps 5–7
completed; when the cancel operation fails, Disconnect changes nothing — the
Connection reference is NOT cleared and Steps 5, 6, 7 keep their statuses
and logs, contradicting the claim that the reset happens in every case. -/
theorem C4_cex :
    (disconnectS false
      { createStatus := .pass, stateStatus := .pass, scanStatus := .pass
        filteredScanStatus := .pending, connectStatus := .pass
        discoverStatus := .pass, validateStatus := .fail
        createLogs := [], stateLogs := [], scanLogs := [], filteredScanLogs := []
        connectLogs := ["Connected! MTU: 517"], discoverLogs := ["Found 1 service(s):"]
        validateLogs := ["  MISSING: Response (FFE3)"]
        devices := [], filteredDevices := [], bleManager := some 0
        connectedDevice := some ⟨"AA:BB", some "ESP32-WiFi-1234", 517, []⟩
        bleState := .poweredOn }).connectedDevice =
        some ⟨"AA:BB", some "ESP32-WiFi-1234", 517, []⟩ ∧
    (disconnectS false
      { createStatus := .pass, stateStatus := .pass, scanStatus := .pass
        filteredScanStatus := .pending, connectStatus := .pass
        discoverStatus := .pass, validateStatus := .fail
        createLogs := [], stateLogs := [], scanLogs := [], filteredScanLogs := []
        connectLogs := ["Connected! MTU: 517"], discoverLogs := ["Found 1 service(s):"]
        validateLogs := ["  MISSING: Response (FFE3)"]
        devices := [], filteredDevices := [], bleManager := some 0
        connectedDevice := some ⟨"AA:BB", some "ESP32-WiFi-1234", 517, []⟩
        bleState := .poweredOn }).connectStatus = .pass ∧
    (disconnectS false
      { createStatus := .pass, stateStatus := .pass, scanStatus := .pass
        filteredScanStatus := .pending, connectStatus := .pass
        discoverStatus := .pass, validateStatus := .fail
        createLogs := [], stateLogs := [], scanLogs := [], filteredScanLogs := []
        connectLogs := ["Connected! MTU: 517"], discoverLogs := ["Found 1 service(s):"]
        validateLogs := ["  MISSING: Response (FFE3)"]
        devices := [], filteredDevices := [], bleManager := some 0
        connectedDevice := some ⟨"AA:BB", some "ESP32-WiFi-1234", 517, []⟩
        bleState := .poweredOn }).discoverLogs = ["Found 1 service(s):"] := by
  decide

/-- C4 (amended): when the cancel operation resolves, Disconnect clears the
Connection reference and resets Steps 5, 6 and 7 to `pending` with empty
logs (touching nothing else); when the cancel operation fails, the rejection
is silently absorbed and the state is left entirely unchanged — the
reference is not cleared and no status or log is touched. -/
theorem C4_disconnect_reset_only_on_success (st : VState) :
    disconnectS true st =
      { st with
          connectedDevice := none
          connectStatus := .pending, connectLogs := []
          discoverStatus := .pending, discoverLogs := []
          validateStatus := .pending, validateLogs := [] } ∧
    disconnectS false st = st := by
  constructor <;> simp [disconnectS]

/-- C9: every step trigger touches only its own status and log cell — the
other six steps' statuses and logs are unchanged by it, on every path
(precondition failure included) and for every outcome of the step's
asynchronous operations; the only cross-step reset is Disconnect, which
touches exactly the cells of Steps 5, 6 and 7. -/
theorem C9_trigger_frame (st : VState) (alloc : Option String) (newId : Nat)
    (captured : StepStatus) (initState : AdapterState) (evs2 : List Step2Event)
    (evs3 evs4 : List ScanEvent) (target : DiscoveredDevice) (co : ConnectOutcome)
    (dco : DiscoverOutcome) (verr : Option String) (cancelOk : Bool) :
    framedExcept [0] st (runCreateManagerS alloc newId st) ∧
    framedExcept [1] st (runCheckStateS captured initState evs2 st) ∧
    framedExcept [2] st (runUnfilteredScanS evs3 st) ∧
    framedExcept [3] st (runFilteredScanS evs4 st) ∧
    framedExcept [4] st (runConnectS target co st) ∧
    framedExcept [5] st (runDiscoverS dco st) ∧
    framedExcept [6] st (runValidateS verr st) ∧
    framedExcept [4, 5, 6] st (disconnectS cancelOk st) := by
  refine ⟨?_, ?_, ?_, ?_, ?_, ?_, ?_, ?_⟩
  · unfold framedExcept
    intro j hj
    cases hm : st.bleManager <;> cases alloc <;> fin_cases j <;>
      simp_all [runCreateManagerS, statusOf, logsOf]
  · unfold framedExcept
    intro j hj
    cases hm : st.bleManager <;> fin_cases j <;>
      simp_all [runCheckStateS, statusOf, logsOf]
  · unfold framedExcept
    intro j hj
    cases hm : st.bleManager <;> fin_cases j <;>
      simp_all [runUnfilteredScanS, statusOf, logsOf]
  · unfold framedExcept
    intro j hj
    cases hm : st.bleManager <;> fin_cases j <;>
      simp_all [runFilteredScanS, statusOf, logsOf]
  · unfold framedExcept
    intro j hj
    cases hm : st.bleManager <;> cases co <;> fin_cases j <;>
      simp_all [runConnectS, statusOf, logsOf]
  · unfold framedExcept
    intro j hj
    cases hc : st.connectedDevice <;> cases dco <;> fin_cases j <;>
      simp_all [runDiscoverS, statusOf, logsOf]
  · unfold framedExcept
    intro j hj
    cases hc : st.connectedDevice <;> fin_cases j <;>
      simp_all [runValidateS, statusOf, logsOf]
  · unfold framedExcept
    intro j hj
    cases cancelOk <;> fin_cases j <;>
      simp_all [disconnectS, statusOf, logsOf]

/-- C1: when Step 7 finds a service whose UUID case-insensitively matches the
provisioning service UUID, the step ends `pass` iff all three fixed expected
characteristic UUIDs (Status FFE1, Command FFE2, Response FFE3) are present,
compared case-insensitively, among that service's characteristics — extra
characteristics never cause a `fail` and never cause a spurious `pass`,
since the status depends on exactly these three membership facts — and each
expected UUID is logged as FOUND when present and MISSING when absent. -/
theorem C1_validate_pass_iff (services : List Service) (svc : Service)
    (hfind : services.find? (fun s => upper s.uuid == upper SERVICE_UUID) = some svc) :
    ((runValidateChars services none).1 = .pass ↔
      ((svc.characteristics.map (fun c => upper c.uuid)).contains (upper STATUS_CHAR_UUID) ∧
       (svc.characteristics.map (fun c => upper c.uuid)).contains (upper COMMAND_CHAR_UUID) ∧
       (svc.characteristics.map (fun c => upper c.uuid)).contains (upper RESPONSE_CHAR_UUID))) ∧
    (∀ e ∈ expectedChars,
      ((svc.characteristics.map (fun c => upper c.uuid)).contains (upper e.1) →
        foundLine e ∈ (runValidateChars services none).2) ∧
      (¬ (svc.characteristics.map (fun c => upper c.uuid)).contains (upper e.1) →
        missingLine e ∈ (runValidateChars services none).2)) := by
  simp only [runValidateChars, hfind]
  simp only [expectedChars, List.map_cons, List.map_nil, List.all_cons, List.all_nil]
  rcases Bool.eq_false_or_eq_true
      ((svc.characteristics.map (fun c => upper c.uuid)).contains (upper STATUS_CHAR_UUID)) with h1 | h1 <;>
  rcases Bool.eq_false_or_eq_true
      ((svc.characteristics.map (fun c => upper c.uuid)).contains (upper COMMAND_CHAR_UUID)) with h2 | h2 <;>
  rcases Bool.eq_false_or_eq_true
      ((svc.characteristics.map (fun c => upper c.uuid)).contains (upper RESPONSE_CHAR_UUID)) with h3 | h3
  all_goals refine ⟨by simp only [h1, h2, h3]; decide, ?_⟩
  all_goals intro e he
  all_goals simp only [expectedChars, List.mem_cons, List.not_mem_nil, or_false] at he
  all_goals rcases he with rfl | rfl | rfl <;> simp only [h1, h2, h3] <;> simp

/-- C1 witness: a discovered service list whose second entry is the
provisioning service written in lower case, holding the three expected
characteristics (lower-case UUIDs) plus one extra; Step 7 passes, and every
expected characteristic is logged FOUND. -/
theorem C1_validate_pass_iff_w :
    ((runValidateChars
        [⟨"00001800-0000-1000-8000-00805F9B34FB", []⟩,
         ⟨"0000ffe0-0000-1000-8000-00805f9b34fb",
          [⟨"0000ffe1-0000-1000-8000-00805f9b34fb", true, false, false, true, false⟩,
           ⟨"0000ffe2-0000-1000-8000-00805f9b34fb", false, true, true, false, false⟩,
           ⟨"0000ffe3-0000-1000-8000-00805f9b34fb", false, false, false, true, true⟩,
           ⟨"0000aaaa-0000-1000-8000-00805f9b34fb", true, false, false, false, false⟩]⟩]
        none).1 = .pass ↔
      (((⟨"0000ffe0-0000-1000-8000-00805f9b34fb",
          [⟨"0000ffe1-0000-1000-8000-00805f9b34fb", true, false, false, true, false⟩,
           ⟨"0000ffe2-0000-1000-8000-00805f9b34fb", false, true, true, false, false⟩,
           ⟨"0000ffe3-0000-1000-8000-00805f9b34fb", false, false, false, true, true⟩,
           ⟨"0000aaaa-0000-1000-8000-00805f9b34fb", true, false, false, false, false⟩]⟩ :
            Service).characteristics.map (fun c => upper c.uuid)).contains
          (upper STATUS_CHAR_UUID) ∧
       ((⟨"0000ffe0-0000-1000-8000-00805f9b34fb",
          [⟨"0000ffe1-0000-1000-8000-00805f9b34fb", true, false, false, true, false⟩,
           ⟨"0000ffe2-0000-1000-8000-00805f9b34fb", false, true, true, false, false⟩,
           ⟨"0000ffe3-0000-1000-8000-00805f9b34fb", false, false, false, true, true⟩,
           ⟨"0000aaaa-0000-1000-8000-00805f9b34fb", true, false, false, false, false⟩]⟩ :
            Service).characteristics.map (fun c => upper c.uuid)).contains
          (upper COMMAND_CHAR_UUID) ∧
       ((⟨"0000ffe0-0000-1000-8000-00805f9b34fb",
          [⟨"0000ffe1-0000-1000-8000-00805f9b34fb", true, false, false, true, false⟩,
           ⟨"0000ffe2-0000-1000-8000-00805f9b34fb", false, true, true, false, false⟩,
           ⟨"0000ffe3-0000-1000-8000-00805f9b34fb", false, false, false, true, true⟩,
           ⟨"0000aaaa-0000-1000-8000-00805f9b34fb", true, false, false, false, false⟩]⟩ :
            Service).characteristics.map (fun c => upper c.uuid)).contains
          (upper RESPONSE_CHAR_UUID))) ∧
    (∀ e ∈ expectedChars,
      (((⟨"0000ffe0-0000-1000-8000-00805f9b34fb",
          [⟨"0000ffe1-0000-1000-8000-00805f9b34fb", true, false, false, true, false⟩,
           ⟨"0000ffe2-0000-1000-8000-00805f9b34fb", false, true, true, false, false⟩,
           ⟨"0000ffe3-0000-1000-8000-00805f9b34fb", false, false, false, true, true⟩,
           ⟨"0000aaaa-0000-1000-8000-00805f9b34fb", true, false, false, false, false⟩]⟩ :
            Service).characteristics.map (fun c => upper c.uuid)).contains (upper e.1) →
        foundLine e ∈
          (runValidateChars
            [⟨"00001800-0000-1000-8000-00805F9B34FB", []⟩,
             ⟨"0000ffe0-0000-1000-8000-00805f9b34fb",
              [⟨"0000ffe1-0000-1000-8000-00805f9b34fb", true, false, false, true, false⟩,
               ⟨"0000ffe2-0000-1000-8000-00805f9b34fb", false, true, true, false, false⟩,
               ⟨"0000ffe3-0000-1000-8000-00805f9b34fb", false, false, false, true, true⟩,
               ⟨"0000aaaa-0000-1000-8000-00805f9b34fb", true, false, false, false, false⟩]⟩]
            none).2) ∧
      (¬ ((⟨"0000ffe0-0000-1000-8000-00805f9b34fb",
          [⟨"0000ffe1-0000-1000-8000-00805f9b34fb", true, false, false, true, false⟩,
           ⟨"0000ffe2-0000-1000-8000-00805f9b34fb", false, true, true, false, false⟩,
           ⟨"0000ffe3-0000-1000-8000-00805f9b34fb", false, false, false, true, true⟩,
           ⟨"0000aaaa-0000-1000-8000-00805f9b34fb", true, false, false, false, false⟩]⟩ :
            Service).characteristics.map (fun c => upper c.uuid)).contains (upper e.1) →
        missingLine e ∈
          (runValidateChars
            [⟨"00001800-0000-1000-8000-00805F9B34FB", []⟩,
             ⟨"0000ffe0-0000-1000-8000-00805f9b34fb",
              [⟨"0000ffe1-0000-1000-8000-00805f9b34fb", true, false, false, true, false⟩,
               ⟨"0000ffe2-0000-1000-8000-00805f9b34fb", false, true, true, false, false⟩,
               ⟨"0000ffe3-0000-1000-8000-00805f9b34fb", false, false, false, true, true⟩,
               ⟨"0000aaaa-0000-1000-8000-00805f9b34fb", true, false, false, false, false⟩]⟩]
            none).2)) :=
  C1_validate_pass_iff _ _ (by decide)

end BleDiag
